import Mathlib

set_option maxRecDepth 100000

/-!
Verification of the job-application prompt-construction repository.

The repository has two Python source files, `main_backend.py` (prompt core
with a formality axis) and `job-application.py` (the Streamlit app variant
without a formality axis).  Pure functions are embedded as Lean functions;
Python dictionaries with `.get` defaults become `Option`-returning lookup
functions; Python string truthiness is modelled explicitly; the calls into
external libraries (pdfminer, python-docx, requests/BeautifulSoup, OpenAI)
are modelled by passing the outcome of the external call as an explicit
argument of an `Except`-like type.
-/

/-- Python truthiness of an optional string: `None` and `""` are falsy. -/
def optTruthy : Option String → Bool
  | none => false
  | some s => !(s == "")

/-- Does `pat` occur as a contiguous sublist of the second argument?
    Models Python's `pat in s` on strings (character sequences). -/
def subOccur (pat : List Char) : List Char → Bool
  | [] => pat.isEmpty
  | c :: rest => pat.isPrefixOf (c :: rest) || subOccur pat rest

/-- Python `pat in s` for strings. -/
def hasSubstr (s pat : String) : Bool :=
  subOccur pat.data s.data

/-- Number of (possibly overlapping) occurrences of `pat` in a character list. -/
def countSub (pat : List Char) : List Char → Nat
  | [] => 0
  | c :: rest => (if pat.isPrefixOf (c :: rest) then 1 else 0) + countSub pat rest

/-- ASCII lower-casing, character by character.  Agrees with Python's
    `str.lower()` on the ASCII formality labels used by this program. -/
def lowerStr (s : String) : String :=
  ⟨s.data.map Char.toLower⟩

/-- ASCII upper-casing, character by character.  Agrees with Python's
    `str.upper()` on the ASCII labels used by this program. -/
def upperStr (s : String) : String :=
  ⟨s.data.map Char.toUpper⟩

/-- Python `", ".join(tone) if tone else "natural, confident"`, after the
    `if tone is None: tone = []` normalisation shared by both builders. -/
def renderTone (tone : Option (List String)) : String :=
  match tone with
  | none => "natural, confident"
  | some ts => if ts.isEmpty then "natural, confident" else String.intercalate ", " ts

/-- Outcome of a call into an external Python library: either a value or a
    raised exception (any exception, matched by `except Exception`). -/
inductive PyResult (α : Type) where
  | ok (a : α)
  | exn (msg : String)
deriving DecidableEq, Repr

/-- `extract_text_from_pdf`: the pdfminer call either returns the extracted
    text or raises; the `except` arm answers the empty string. -/
def extract_text_from_pdf (parsed : PyResult String) : String :=
  match parsed with
  | .ok text => text
  | .exn _ => ""

/-- `extract_text_from_docx`: the docx call either yields the list of
    paragraph texts or raises; paragraphs are joined with a newline, and the
    `except` arm answers the empty string. -/
def extract_text_from_docx (doc : PyResult (List String)) : String :=
  match doc with
  | .ok paras => String.intercalate "\n" paras
  | .exn _ => ""

/-- `fetch_job_description`: the request/parse pipeline either yields the
    stripped text of each matched tag (`h1,h2,h3,p,li`, document order) or
    raises (network error, `raise_for_status`, parse failure); non-empty tag
    texts are joined with newlines, and the `except` arm answers `''`. -/
def fetch_job_description (fetched : PyResult (List String)) : String :=
  match fetched with
  | .ok texts => String.intercalate "\n" (texts.filter (fun t => !(t == "")))
  | .exn _ => ""

namespace MainBackend

/-- One row of the `greeting_formats` table: the formal and informal
    greeting templates of a language. -/
structure GreetingPair where
  formal : String
  informal : String
deriving DecidableEq, Repr

/-- The `greeting_formats` dictionary of `main_backend.py`. -/
def greeting_formats (language : String) : Option GreetingPair :=
  if language == "English" then some ⟨"Dear (#)", "Dear (#)"⟩
  else if language == "Dutch" then some ⟨"Geachte (#)", "Beste (#)"⟩
  else if language == "French" then some ⟨"Madame, Monsieur", "Bonjour (#)"⟩
  else if language == "German" then some ⟨"Sehr geehrte/r (#)", "Hallo (#)"⟩
  else if language == "Spanish" then some ⟨"Estimado/a (#)", "Hola (#)"⟩
  else if language == "Italian" then some ⟨"Gentile (#)", "Salve (#)"⟩
  else none

/-- `get_greeting_format(language, formality=None)` of `main_backend.py`:
    dictionary lookup with a default of `\x7b"formal": "Dear (#)",
    "informal": "Dear (#)"\x7d`, then the formality branch on substring
    tests against `formality.lower()`. -/
def get_greeting_format (language : String) (formality : Option String := none) : String :=
  let base := (greeting_formats language).getD ⟨"Dear (#)", "Dear (#)"⟩
  if optTruthy formality && hasSubstr (lowerStr (formality.getD "")) "formal" then
    base.formal
  else if optTruthy formality && hasSubstr (lowerStr (formality.getD "")) "informal" then
    base.informal
  else
    base.formal

/-- One guidance bundle of the `language_guides` table of `main_backend.py`:
    style, cultural and avoidance fragments. -/
structure GuideBundle where
  style : String
  cultural : String
  avoid : String
deriving DecidableEq, Repr

/-- One row of `language_guides`: the formal and the informal bundle. -/
structure GuideRow where
  formal : GuideBundle
  informal : GuideBundle
deriving DecidableEq, Repr

/-- The `language_guides` dictionary of `main_backend.py` (note: it has no
    entry for `"English"`). -/
def language_guides (language : String) : Option GuideRow :=
  if language == "Dutch" then some
    { formal :=
        { style := "Use natural, business-appropriate Dutch with 'u' for formal address. Avoid overly formal constructions like 'ik ben goed uitgerust om de taak' - use more natural expressions like 'ik heb ervaring met' or 'ik zou graag bijdragen aan'. Include typical Dutch business expressions like 'graag', 'bijzonder', 'uitstekend'."
          cultural := "Dutch business culture values directness and efficiency. Be straightforward but polite. Use natural, conversational tone even in formal contexts."
          avoid := "Avoid overly formal or literal translations from English. Don't use constructions like 'goed uitgerust zijn om' - this sounds unnatural in Dutch." }
      informal :=
        { style := "Use natural, friendly Dutch with 'je' for informal address. Keep it professional but approachable. Use common Dutch expressions and natural sentence structures."
          cultural := "Dutch informal business communication is still professional but more relaxed and personal."
          avoid := "Avoid overly casual expressions that might be unprofessional in a business context." } }
  else if language == "French" then some
    { formal :=
        { style := "Use formal French with proper business etiquette. Use 'vous' form throughout. Include sophisticated vocabulary and proper French business expressions."
          cultural := "French business culture appreciates elegance and sophistication. Use refined language and show appreciation for the company's values."
          avoid := "Avoid overly complex sentence structures that might sound unnatural." }
      informal :=
        { style := "Use 'tu' form but maintain professional tone. French informal business communication still requires elegance."
          cultural := "French informal business communication maintains a certain level of sophistication."
          avoid := "Avoid overly casual expressions that might be inappropriate in business contexts." } }
  else if language == "German" then some
    { formal :=
        { style := "Use formal German (Sie form). German business communication is precise and structured. Use compound words appropriately and maintain professional tone."
          cultural := "German business culture values precision, reliability, and thoroughness. Be specific about qualifications and achievements."
          avoid := "Avoid overly complex compound words that might be hard to read." }
      informal :=
        { style := "Use 'du' form but maintain professional structure and precision typical of German business communication."
          cultural := "German informal business communication still values clarity and precision."
          avoid := "Avoid overly casual expressions that might seem unprofessional." } }
  else if language == "Spanish" then some
    { formal :=
        { style := "Use formal Spanish with usted form. Include appropriate business vocabulary and maintain professional but warm tone typical of Spanish business culture."
          cultural := "Spanish business culture values personal relationships and enthusiasm. Show genuine interest and passion for the role."
          avoid := "Avoid overly formal expressions that might sound cold or distant." }
      informal :=
        { style := "Use 'tú' form but maintain professional warmth and enthusiasm typical of Spanish business culture."
          cultural := "Spanish informal business communication still emphasizes personal connection and enthusiasm."
          avoid := "Avoid overly casual expressions that might be inappropriate in business contexts." } }
  else if language == "Italian" then some
    { formal :=
        { style := "Use formal Italian with Lei form. Italian business communication balances professionalism with warmth and personal touch."
          cultural := "Italian business culture appreciates passion, creativity, and personal connection. Show enthusiasm while maintaining professionalism."
          avoid := "Avoid overly formal expressions that might sound cold or distant." }
      informal :=
        { style := "Use 'tu' form but maintain the warmth and personal touch typical of Italian business communication."
          cultural := "Italian informal business communication still emphasizes passion and personal connection."
          avoid := "Avoid overly casual expressions that might be inappropriate in business contexts." } }
  else none

/-- `get_language_instructions(language, formality=None)` of `main_backend.py`:
    `language_guides.get(language, \x7b\x7d)`, an empty-dict early return
    (`none` models the empty dict), then the same formality branch as the
    greeting resolution. -/
def get_language_instructions (language : String) (formality : Option String := none) :
    Option GuideBundle :=
  match language_guides language with
  | none => none
  | some base =>
    if optTruthy formality && hasSubstr (lowerStr (formality.getD "")) "formal" then
      some base.formal
    else if optTruthy formality && hasSubstr (lowerStr (formality.getD "")) "informal" then
      some base.informal
    else
      some base.formal

/-- `formality if formality else 'standard business tone'` in `build_prompt`. -/
def formality_desc (formality : Option String) : String :=
  if optTruthy formality then formality.getD "" else "standard business tone"

/-- The language-specific instruction sub-block of `build_prompt`
    (`main_backend.py` lines 205-217): an `f\"\"\"...\"\"\"` template when the
    language is not English and the guide lookup is a non-empty dict,
    otherwise the empty string. -/
def language_instruction (language : String) (formality : Option String) : String :=
  let lang_guide := get_language_instructions language formality
  if language != "English" && lang_guide.isSome then
    let fd := formality_desc formality
    "\n        LANGUAGE: Write in " ++ language ++ " using " ++ fd ++
    ".\n        \n        FORMALITY LEVEL: " ++ upperStr fd ++
    ". You MUST use the appropriate formality level throughout the entire letter - in both the greeting AND the body content.\n        \n        STYLE: " ++
    (lang_guide.map (·.style)).getD "" ++
    "\n        CULTURAL CONTEXT: " ++ (lang_guide.map (·.cultural)).getD "" ++
    "\n        AVOID: " ++ (lang_guide.map (·.avoid)).getD "" ++
    "\n        "
  else
    ""

/-- The value of the `Formality:` user-content line:
    `formality if formality else 'Standard business tone'`. -/
def formality_line (formality : Option String) : String :=
  if optTruthy formality then formality.getD "" else "Standard business tone"

/-- The restated instruction block that closes `build_prompt`'s user content
    (`main_backend.py` lines 248-258): grounding rules, then
    `Structure requirements:` restating greeting, paragraph and closing
    structure, with the resolved greeting template interpolated. -/
def user_instructions (language : String) (formality : Option String) : String :=
  "Instructions: Using only the information above, produce a complete professional cover letter tailored to the job description. " ++
  "Make it sound natural and professional — not like an AI. Avoid complex language use like 'prowess', 'honed', or 'renowned'. " ++
  "Do not add any claims not supported by the provided materials. " ++
  "If no direct match is found, highlight transferable skills starting with your study background or related projects. " ++
  "This should be a job application cover letter, not a response from the employer. " ++
  "Structure requirements: " ++
  "1) Start with a proper greeting ('" ++ get_greeting_format language formality ++
  "' where (#) is a placeholder for the recipient's name - use this exact format), " ++
  "2) Write exactly 3 body paragraphs of 40-55 words each, expressing enthusiasm for the role and connecting your skills and qualifications to the job requirements, " ++
  "3) Followed by a short closing paragraph with a confident, positive one-liner sentence about contributing to the role or team, " ++
  "4) End with an official closing (e.g., 'Sincerely' or appropriate closing for the language) followed by your full name and email address (extract from resume), then on a new line add: [LinkedIn](#) | [Github](#) | [Website](#) as placeholders. " ++
  "CRITICAL: The closing paragraph (step 3) must be distinct from the third body paragraph (step 2). Do not repeat phrases like 'I look forward to contributing' or similar expressions in both paragraphs. "

/-- The fixed text of the restated instruction block that precedes the
    interpolated greeting template. -/
def ui_head : String :=
  "Instructions: Using only the information above, produce a complete professional cover letter tailored to the job description. " ++
  "Make it sound natural and professional — not like an AI. Avoid complex language use like 'prowess', 'honed', or 'renowned'. " ++
  "Do not add any claims not supported by the provided materials. " ++
  "If no direct match is found, highlight transferable skills starting with your study background or related projects. " ++
  "This should be a job application cover letter, not a response from the employer. " ++
  "Structure requirements: " ++
  "1) Start with a proper greeting ('"

/-- The fixed text of the restated instruction block that follows the
    interpolated greeting template. -/
def ui_tail : String :=
  "' where (#) is a placeholder for the recipient's name - use this exact format), " ++
  "2) Write exactly 3 body paragraphs of 40-55 words each, expressing enthusiasm for the role and connecting your skills and qualifications to the job requirements, " ++
  "3) Followed by a short closing paragraph with a confident, positive one-liner sentence about contributing to the role or team, " ++
  "4) End with an official closing (e.g., 'Sincerely' or appropriate closing for the language) followed by your full name and email address (extract from resume), then on a new line add: [LinkedIn](#) | [Github](#) | [Website](#) as placeholders. " ++
  "CRITICAL: The closing paragraph (step 3) must be distinct from the third body paragraph (step 2). Do not repeat phrases like 'I look forward to contributing' or similar expressions in both paragraphs. "

/-- `build_prompt` of `main_backend.py`: returns the pair
    `(system_instructions, user_content)`.  Note that the
    `MANDATORY GREETING FORMAT` sentence is a plain (non-f) string literal in
    the source, so `\x7bgreeting_format\x7d` appears literally in it. -/
def build_prompt (resume_text cover_text job_text : String)
    (additional_notes : String := "") (tone : Option (List String) := none)
    (language : String := "English") (formality : Option String := none) :
    String × String :=
  let toneStr := renderTone tone
  let lang_inst := language_instruction language formality
  let system_instructions :=
    "You are a personal assistant that writes professional job application cover letters and responses. " ++
    "Always write in first person as the job applicant expressing interest in the position. " ++
    "Only use information from the resume, cover letter, user-provided notes, and job description. " ++
    "Do not invent details. If a skill or experience is missing, emphasize transferable skills instead. " ++
    "Explicitly connect your skills, projects, or achievements to the requirements in the job description, " ++
    "and use keywords from the posting where appropriate. " ++
    "Focus on how you can deliver value to the company, not just on listing skills. " ++
    "Make sure to bring variety in sentences, not just starting with 'My', 'I', or 'Me'. " ++
    "Each sentence should be under 20 words for readability. " ++
    "If measurable results are present in the resume/cover letter, include one strong example. " ++
    "MANDATORY GREETING FORMAT: The cover letter MUST begin with the exact format provided: '\x7bgreeting_format\x7d' where (#) is a placeholder. " ++
    "Format: Write a complete professional cover letter with: " ++
    "1) A proper introduction/greeting ('" ++ get_greeting_format language formality ++
    "' where (#) is a placeholder for the recipient's name - use this exact format), " ++
    "2) Exactly 3 body paragraphs, each containing 40–55 words, expressing enthusiasm for the role and connecting your skills and qualifications to the job requirements, " ++
    "3) Followed by a short closing paragraph with a confident, positive one-liner sentence about contributing to the role or team, " ++
    "4) An official closing (e.g., 'Sincerely' or appropriate closing for the language) followed by your full name and email address (extract from resume), then on a new line add: [LinkedIn](#) | [Github](#) | [Website](#) as placeholders. " ++
    "CRITICAL: Do not repeat information across paragraphs. The closing paragraph (step 3) must be distinct from the third body paragraph (step 2) - avoid repeating phrases like 'I look forward to' or similar expressions in both. " ++
    "Keep tone: " ++ toneStr ++ ". " ++ lang_inst
  let user_content :=
    "Resume:\n" ++ resume_text ++ "\n\n" ++
    "Cover Letter:\n" ++ cover_text ++ "\n\n" ++
    "Job Description:\n" ++ job_text ++ "\n\n" ++
    "Additional Notes (user-provided):\n" ++ additional_notes ++ "\n\n" ++
    "Language:\n" ++ language ++ "\n" ++
    "Formality:\n" ++ formality_line formality ++ "\n\n" ++
    user_instructions language formality
  (system_instructions, user_content)

end MainBackend

namespace JobApplication

/-- One guidance bundle of the `language_guides` table of
    `job-application.py`: style, cultural and example-phrase fragments
    (no formality axis in this variant). -/
structure GuideBundle where
  style : String
  cultural : String
  examples : String
deriving DecidableEq, Repr

/-- The `language_guides` dictionary of `job-application.py`. -/
def language_guides (language : String) : Option GuideBundle :=
  if language == "Dutch" then some
    { style := "Use formal but approachable Dutch. Avoid overly complex sentence structures. Use 'u' for formal address. Include typical Dutch business expressions like 'graag', 'bijzonder', 'uitstekend'."
      cultural := "Dutch business culture values directness and efficiency. Be straightforward but polite. Mention specific achievements with confidence."
      examples := "Good phrases: 'Ik ben bijzonder geïnteresseerd in...', 'Mijn ervaring met... maakt mij een sterke kandidaat', 'Ik zou graag de kans krijgen om...'" }
  else if language == "French" then some
    { style := "Use formal French with proper business etiquette. Use 'vous' form throughout. Include sophisticated vocabulary and proper French business expressions."
      cultural := "French business culture appreciates elegance and sophistication. Use refined language and show appreciation for the company's values."
      examples := "Good phrases: 'Je suis particulièrement intéressé(e) par...', 'Mon expérience dans... me permet de...', 'J'aimerais avoir l'opportunité de...'" }
  else if language == "German" then some
    { style := "Use formal German (Sie form). German business communication is precise and structured. Use compound words appropriately and maintain professional tone."
      cultural := "German business culture values precision, reliability, and thoroughness. Be specific about qualifications and achievements."
      examples := "Good phrases: 'Ich bin besonders interessiert an...', 'Meine Erfahrung in... qualifiziert mich für...', 'Ich würde mich freuen, die Gelegenheit zu bekommen...'" }
  else if language == "Spanish" then some
    { style := "Use formal Spanish with usted form. Include appropriate business vocabulary and maintain professional but warm tone typical of Spanish business culture."
      cultural := "Spanish business culture values personal relationships and enthusiasm. Show genuine interest and passion for the role."
      examples := "Good phrases: 'Estoy especialmente interesado/a en...', 'Mi experiencia en... me convierte en un candidato ideal', 'Me encantaría tener la oportunidad de...'" }
  else if language == "Italian" then some
    { style := "Use formal Italian with Lei form. Italian business communication balances professionalism with warmth and personal touch."
      cultural := "Italian business culture appreciates passion, creativity, and personal connection. Show enthusiasm while maintaining professionalism."
      examples := "Good phrases: 'Sono particolarmente interessato/a a...', 'La mia esperienza in... mi rende un candidato ideale', 'Mi piacerebbe avere l'opportunità di...'" }
  else none

/-- `get_language_instructions(language)` of `job-application.py`:
    `language_guides.get(language, \x7b\x7d)`; `none` models the empty dict. -/
def get_language_instructions (language : String) : Option GuideBundle :=
  language_guides language

/-- The language-specific instruction sub-block of `build_prompt`
    (`job-application.py` lines 135-150). -/
def language_instruction (language : String) : String :=
  let lang_guide := get_language_instructions language
  if language != "English" && lang_guide.isSome then
    "\n        CRITICAL: Write the response in " ++ language ++
    ". Follow these specific guidelines for native-quality output:\n\n        Style: " ++
    (lang_guide.map (·.style)).getD "" ++
    "\n        Cultural Context: " ++ (lang_guide.map (·.cultural)).getD "" ++
    "\n        Example Phrases: " ++ (lang_guide.map (·.examples)).getD "" ++
    "\n\n        IMPORTANT:\n        - Use only native-level " ++ language ++
    " expressions\n        - Ensure the text sounds natural to a native " ++ language ++
    " speaker\n        - Use appropriate formal/informal register for business context\n        - Avoid literal translations from English\n        "
  else
    ""

/-- `build_prompt` of `job-application.py`: returns the pair
    `(system_instructions, user_content)`.  This variant has no formality
    argument, adds a `Tone:` section and has no `Formality:` section. -/
def build_prompt (resume_text cover_text job_text : String)
    (additional_notes : String := "") (tone : Option (List String) := none)
    (language : String := "English") : String × String :=
  let toneStr := renderTone tone
  let lang_inst := language_instruction language
  let system_instructions :=
    "You are a personal assistant that writes professional job application cover letters and responses." ++
    "Always write in first person as the job applicant expressing interest in the position." ++
    "Begin by expressing enthusiasm for the specific role and company you're applying to." ++
    "Only use information from the resume, cover letter, user-provided notes, and job description." ++
    "Do not invent details. If a skill or experience is missing, emphasize transferable skills instead." ++
    "Explicitly connect your skills, projects, or achievements to the requirements in the job description, " ++
    "and use keywords from the posting where appropriate." ++
    "Focus on how you can deliver value to the company, not just on listing skills." ++
    "Make sure to bring variety in sentences, not just starting with 'My', 'I', or 'Me'." ++
    "Target length: 200–250 words (3–4 short paragraphs)." ++
    "Each sentence should be under 20 words for readability." ++
    "If measurable results are present in the resume/cover letter, include one strong example." ++
    "Always close with a confident, positive line about contributing to the role or team." ++
    "Keep tone: " ++ toneStr ++ ". " ++ lang_inst
  let user_content :=
    "Resume:\n" ++ resume_text ++ "\n\n" ++
    "Cover Letter:\n" ++ cover_text ++ "\n\n" ++
    "Job Description:\n" ++ job_text ++ "\n\n" ++
    "Additional Notes (user-provided):\n" ++ additional_notes ++ "\n\n" ++
    "Tone:\n" ++ toneStr ++ "\n\n" ++
    "Language:\n" ++ language ++ "\n\n" ++
    "Instructions: Using only the information above, produce a cohesive reply tailored to the job description." ++
    "Make it sound natural, confident, and professional — not like an AI. Avoid complex language use like 'prowess', 'honed', or 'renowned'." ++
    "Show enthusiasm for the role, align your skills with requirements, and highlight how you will add value to the company." ++
    "Do not add any claims not supported by the provided materials." ++
    "If no direct match is found, highlight transferable skills starting with your study background or related projects." ++
    "This should be a job application cover letter, not a response from the employer."
  (system_instructions, user_content)

/-- An uploaded document as the handler sees it: the declared MIME type and
    the outcomes of the two possible external parses of its bytes. -/
structure UploadedFile where
  fileType : String
  pdfResult : PyResult String
  docxResult : PyResult (List String)
deriving Repr

/-- The per-file extraction dispatch of the handler (`job-application.py`
    lines 217-228): PDF MIME type goes to the pdf extractor, anything else
    to the docx extractor. -/
def readDoc (f : UploadedFile) : String :=
  if f.fileType == "application/pdf" then extract_text_from_pdf f.pdfResult
  else extract_text_from_docx f.docxResult

/-- Python truthiness of a string. -/
def strTruthy (s : String) : Bool := !(s == "")

/-- Observable outcome of one run of the `Generate reply` handler. -/
structure GenerateOutcome where
  validationError : Bool
  warnedNoJob : Bool
  keyError : Bool
  calledModel : Bool
  generationError : Option String
  reply : Option String
  prompt : String × String
deriving Repr

/-- The `Generate reply` button handler of `job-application.py`
    (lines 214-271), embedded as one function from the handler's inputs and
    the outcomes of its external calls to its observable effects.  Mirrors
    the source control flow: extraction, optional job fetch, the
    `st.error`/`st.warning` validation (which does NOT halt the handler),
    the unconditional `build_prompt`, the API-key check, and the model call
    inside `try`. -/
def generate_reply (resume_file cover_file : Option UploadedFile)
    (job_url job_text_input additional_notes : String) (tone : List String)
    (language : String) (fetchResult : PyResult (List String))
    (apiKeyTruthy : Bool) (modelResult : PyResult String) : GenerateOutcome :=
  let resume_text := match resume_file with
    | none => ""
    | some f => readDoc f
  let cover_text := match cover_file with
    | none => ""
    | some f => readDoc f
  let job_text :=
    if strTruthy job_url && !(strTruthy job_text_input) then
      fetch_job_description fetchResult
    else job_text_input
  let validationError := !(strTruthy resume_text || strTruthy cover_text)
  let warnedNoJob := !validationError && !(strTruthy job_text || strTruthy job_url)
  let prompt := build_prompt resume_text cover_text job_text additional_notes (some tone) language
  if !apiKeyTruthy then
    { validationError, warnedNoJob, keyError := true, calledModel := false,
      generationError := none, reply := none, prompt }
  else
    match modelResult with
    | .ok out =>
      { validationError, warnedNoJob, keyError := false, calledModel := true,
        generationError := none, reply := some out, prompt }
    | .exn e =>
      { validationError, warnedNoJob, keyError := false, calledModel := true,
        generationError := some ("Error while generating: " ++ e), reply := none, prompt }

end JobApplication

/-- C1: the claim (and the spec) say that for language `Dutch` and formality
    `Informal (je)` the greeting resolution returns `Beste (#)`.  The code's
    first branch tests whether the substring `formal` occurs in the lowered
    formality label; since `formal` is a substring of `informal`, that branch
    also fires for every informal label, the `informal` arm is unreachable,
    and the call returns the formal `Geachte (#)`.  This theorem evaluates
    the embedded code at the failing input.  The second half of the claim
    does hold: the language-instruction sub-block is non-empty and carries
    the informal-register directive via the interpolated formality label. -/
theorem C1_dutch_informal_greeting_bug :
    MainBackend.get_greeting_format "Dutch" (some "Informal (je)") = "Geachte (#)" ∧
    MainBackend.get_greeting_format "Dutch" (some "Informal (je)") ≠ "Beste (#)" ∧
    MainBackend.language_instruction "Dutch" (some "Informal (je)") ≠ "" ∧
    hasSubstr (MainBackend.language_instruction "Dutch" (some "Informal (je)"))
      "FORMALITY LEVEL: INFORMAL (JE)" = true := by
  decide

/-- C2 counterexample: the claim says every supported (language, formality)
    pair resolves to a template with exactly one `(#)` placeholder, but the
    French formal greeting is `Madame, Monsieur`, which contains none. -/
theorem C2_french_formal_counterexample :
    MainBackend.get_greeting_format "French" (some "Formal (vous)") = "Madame, Monsieur" ∧
    countSub "(#)".data
      (MainBackend.get_greeting_format "French" (some "Formal (vous)")).data = 0 := by
  decide

/-- C2 amended: every greeting template in the table contains exactly one
    occurrence of the placeholder token `(#)`, except the French formal
    template `Madame, Monsieur`, which contains zero; none contains a
    filled-in name (the resolution function takes no name argument and
    returns only these fixed literals). -/
theorem C2_placeholder_count_amended :
    (["English", "Dutch", "French", "German", "Spanish", "Italian"].all fun l =>
      match MainBackend.greeting_formats l with
      | some p =>
          (countSub "(#)".data p.formal.data ==
            (if p.formal == "Madame, Monsieur" then 0 else 1)) &&
          (countSub "(#)".data p.informal.data == 1)
      | none => false) = true := by
  decide

/-- C3: the claim says that with both the résumé text and the cover-letter
    text empty the orchestrator rejects the request and makes no call to the
    generation service.  In the code the `st.error` validation message does
    not halt the handler: execution falls through to `build_prompt` and,
    whenever the API key is present, to `openai.chat.completions.create`.
    This theorem evaluates the embedded handler at the failing input: the
    validation message is emitted AND the model is still called. -/
theorem C3_empty_sources_model_still_called :
    (JobApplication.generate_reply none none "" "" "" [] "English"
        (.exn "unused") true (.ok "reply")).validationError = true ∧
    (JobApplication.generate_reply none none "" "" "" [] "English"
        (.exn "unused") true (.ok "reply")).calledModel = true := by
  decide

/-- C4: the prompt builder is deterministic — two calls with identical
    arguments return identical `(system_instructions, user_content)` pairs,
    for both source variants of `build_prompt`.  The embedded builders are
    pure functions of their arguments (no randomness, no external calls). -/
theorem C4_build_prompt_deterministic
    (r₁ c₁ j₁ n₁ : String) (t₁ : Option (List String)) (l₁ : String) (f₁ : Option String)
    (r₂ c₂ j₂ n₂ : String) (t₂ : Option (List String)) (l₂ : String) (f₂ : Option String)
    (h : (r₁, c₁, j₁, n₁, t₁, l₁, f₁) = (r₂, c₂, j₂, n₂, t₂, l₂, f₂)) :
    MainBackend.build_prompt r₁ c₁ j₁ n₁ t₁ l₁ f₁ =
      MainBackend.build_prompt r₂ c₂ j₂ n₂ t₂ l₂ f₂ ∧
    JobApplication.build_prompt r₁ c₁ j₁ n₁ t₁ l₁ =
      JobApplication.build_prompt r₂ c₂ j₂ n₂ t₂ l₂ := by
  simp only [Prod.mk.injEq] at h
  obtain ⟨rfl, rfl, rfl, rfl, rfl, rfl, rfl⟩ := h
  exact ⟨rfl, rfl⟩

/-- C4 witness: the determinism theorem applied at a concrete input. -/
theorem C4_witness :
    MainBackend.build_prompt "my resume" "my letter" "the job" "notes"
        (some ["Confident"]) "Dutch" (some "Formal (u)") =
      MainBackend.build_prompt "my resume" "my letter" "the job" "notes"
        (some ["Confident"]) "Dutch" (some "Formal (u)") ∧
    JobApplication.build_prompt "my resume" "my letter" "the job" "notes"
        (some ["Confident"]) "Dutch" =
      JobApplication.build_prompt "my resume" "my letter" "the job" "notes"
        (some ["Confident"]) "Dutch" :=
  C4_build_prompt_deterministic
    "my resume" "my letter" "the job" "notes" (some ["Confident"]) "Dutch" (some "Formal (u)")
    "my resume" "my letter" "the job" "notes" (some ["Confident"]) "Dutch" (some "Formal (u)")
    rfl

/-- C5: for the default language English the language-instruction sub-block
    is the empty string for every formality value (including `none` and any
    label), in `main_backend.py`; the formality-free variant of
    `job-application.py` likewise yields the empty sub-block for English. -/
theorem C5_default_language_empty_sub_block (formality : Option String) :
    MainBackend.language_instruction "English" formality = "" ∧
    JobApplication.language_instruction "English" = "" :=
  ⟨rfl, rfl⟩

/-- C6: for every language outside the supported set, and every formality
    value, the guide lookup returns the empty bundle (`none` models Python's
    empty dict) and the greeting resolution returns the default template
    `Dear (#)`; both embedded functions are total, so no error is raised. -/
theorem C6_unknown_language_defaults (language : String) (formality : Option String)
    (h : language ∉ ["English", "Dutch", "French", "German", "Spanish", "Italian"]) :
    MainBackend.get_language_instructions language formality = none ∧
    MainBackend.get_greeting_format language formality = "Dear (#)" := by
  simp only [List.mem_cons, List.not_mem_nil, or_false, not_or] at h
  obtain ⟨h₁, h₂, h₃, h₄, h₅, h₆⟩ := h
  constructor
  · simp [MainBackend.get_language_instructions, MainBackend.language_guides,
      h₁, h₂, h₃, h₄, h₅, h₆]
  · simp [MainBackend.get_greeting_format, MainBackend.greeting_formats,
      h₁, h₂, h₃, h₄, h₅, h₆]

/-- C6 witness: the graceful-degradation theorem applied at the unsupported
    language `Klingon` with a concrete formality label. -/
theorem C6_witness :
    "Klingon" ∉ ["English", "Dutch", "French", "German", "Spanish", "Italian"] ∧
    (MainBackend.get_language_instructions "Klingon" (some "Formal (u)") = none ∧
     MainBackend.get_greeting_format "Klingon" (some "Formal (u)") = "Dear (#)") :=
  ⟨by decide, C6_unknown_language_defaults "Klingon" (some "Formal (u)") (by decide)⟩

/-- C7: tone normalization in the builder — the empty tone set (and `none`)
    renders as the literal fallback `natural, confident`, and the tone list
    `["Confident", "Natural"]` renders as its comma-join in input order;
    the rendered string is embedded after `Keep tone: ` in the system
    instructions produced by the builder. -/
theorem C7_tone_rendering :
    renderTone none = "natural, confident" ∧
    renderTone (some []) = "natural, confident" ∧
    renderTone (some ["Confident", "Natural"]) = "Confident, Natural" ∧
    hasSubstr (MainBackend.build_prompt "" "" "" "" (some []) "English" none).1
      "Keep tone: natural, confident. " = true ∧
    hasSubstr (MainBackend.build_prompt "" "" "" "" (some ["Confident", "Natural"]) "English" none).1
      "Keep tone: Confident, Natural. " = true := by
  decide

/-- C8: the builder's user content is the labeled sections in exactly the
    order Resume, Cover Letter, Job Description, Additional Notes, Language,
    Formality, followed by the restated instruction block
    `user_instructions`, which splits as fixed text around the interpolated
    greeting template and restates the grounding rule (`Using only the
    information above`, `Do not add any claims...`) and the structural rules
    (`Structure requirements: `, exactly 3 body paragraphs). -/
theorem C8_user_content_layout (r c j n : String) (t : Option (List String))
    (l : String) (f : Option String) :
    (MainBackend.build_prompt r c j n t l f).2 =
      ("Resume:\n" ++ r ++ "\n\n") ++
      ("Cover Letter:\n" ++ c ++ "\n\n") ++
      ("Job Description:\n" ++ j ++ "\n\n") ++
      ("Additional Notes (user-provided):\n" ++ n ++ "\n\n") ++
      ("Language:\n" ++ l ++ "\n") ++
      ("Formality:\n" ++ MainBackend.formality_line f ++ "\n\n") ++
      MainBackend.user_instructions l f ∧
    MainBackend.user_instructions l f =
      MainBackend.ui_head ++ MainBackend.get_greeting_format l f ++ MainBackend.ui_tail ∧
    hasSubstr MainBackend.ui_head "Instructions: Using only the information above" = true ∧
    hasSubstr MainBackend.ui_head "Do not add any claims not supported by the provided materials" = true ∧
    hasSubstr MainBackend.ui_head "Structure requirements: " = true ∧
    hasSubstr MainBackend.ui_tail "2) Write exactly 3 body paragraphs" = true := by
  refine ⟨?_, ?_, by decide, by decide, by decide, by decide⟩
  · apply String.ext
    simp only [MainBackend.build_prompt, String.data_append, List.append_assoc]
  · apply String.ext
    simp only [MainBackend.user_instructions, MainBackend.ui_head, MainBackend.ui_tail,
      String.data_append, List.append_assoc]

/-- C9: the document extractors and the job fetcher swallow every internal
    failure and answer the empty string.  The embedded functions are total
    Lean functions of the external call's outcome, so no exception crosses
    the boundary; on every raised exception each returns `""`. -/
theorem C9_extractors_swallow_failures (e₁ e₂ e₃ : String) :
    extract_text_from_pdf (.exn e₁) = "" ∧
    extract_text_from_docx (.exn e₂) = "" ∧
    fetch_job_description (.exn e₃) = "" :=
  ⟨rfl, rfl, rfl⟩

/-- C10: when the formality argument is absent (falsy: `None` or the empty
    string), greeting resolution returns the formal template of the language
    row and guide lookup returns the formal bundle; for each of the five
    languages that distinguish formality the formal and informal variants
    differ, so the absent-formality case never yields the informal one. -/
theorem C10_absent_formality_formal_default (language : String) (formality : Option String)
    (h : optTruthy formality = false) :
    MainBackend.get_greeting_format language formality =
      ((MainBackend.greeting_formats language).getD ⟨"Dear (#)", "Dear (#)"⟩).formal ∧
    MainBackend.get_language_instructions language formality =
      (MainBackend.language_guides language).map (·.formal) ∧
    (["Dutch", "French", "German", "Spanish", "Italian"].all fun l =>
      match MainBackend.greeting_formats l, MainBackend.language_guides l with
      | some p, some g => !(p.formal == p.informal) && !(g.formal == g.informal)
      | _, _ => false) = true := by
  refine ⟨?_, ?_, by decide⟩
  · simp [MainBackend.get_greeting_format, h]
  · cases hg : MainBackend.language_guides language with
    | none => simp [MainBackend.get_language_instructions, hg]
    | some base => simp [MainBackend.get_language_instructions, hg, h]

/-- C10 witness: the formal-default theorem applied at `Dutch` with the
    formality argument absent. -/
theorem C10_witness :
    optTruthy (none : Option String) = false ∧
    (MainBackend.get_greeting_format "Dutch" none =
      ((MainBackend.greeting_formats "Dutch").getD ⟨"Dear (#)", "Dear (#)"⟩).formal ∧
    MainBackend.get_language_instructions "Dutch" none =
      (MainBackend.language_guides "Dutch").map (·.formal) ∧
    (["Dutch", "French", "German", "Spanish", "Italian"].all fun l =>
      match MainBackend.greeting_formats l, MainBackend.language_guides l with
      | some p, some g => !(p.formal == p.informal) && !(g.formal == g.informal)
      | _, _ => false) = true) :=
  ⟨rfl, C10_absent_formality_formal_default "Dutch" none rfl⟩
